import Mathlib

/-!
Verification of the MedGemma RunPod serverless handler and its batch client.

Shallow embedding of src/handler.py and src/image-captioner.py.
External effects of the Python code (PIL image loading, HTTP requests,
model generation) are modelled as oracle functions returning Except
values; a Python exception is an Except.error value and each
try/except block of the source becomes a match on such a value.
Every generation call made by the service is recorded in a GenCall log
so that properties of the form "performs no generation" are statable.
-/

namespace MedGemma

/-- Abstract stand-in for an in-memory PIL image object. -/
abbrev PImage := Nat

/-- A Python exception: the message produced by str(e) together with the
string produced by traceback.format_exc(). -/
structure Exn where
  msg : String
  tb : String

/-- A JSON value sitting in a job-input field: either a string or some
non-string value (only the isinstance(..., str) distinction matters to
the handler). -/
inductive PyVal where
  | str (s : String)
  | other

/-- The job input dictionary of handler.py, with its four recognised
fields. A missing key is modelled as none. -/
structure JobInput where
  image : Option PyVal
  text : Option PyVal
  prompt : Option String
  max_new_tokens : Option Nat

/-- Default image-captioning prompt of handler.py (module constant
CAPTION_PROMPT, the environment-variable fallback value). -/
def CAPTION_PROMPT : String := "You are a world renowned physician. Check the xray image and provide a detailed analysis, anamnesis and diagnosis. Ensure you also mention the next steps of action"

/-- Default prompt for text-only questions, hard coded inside
process_text_question in handler.py. -/
def TEXT_QUESTION_DEFAULT_PROMPT : String := "You are a world renowned physician. Please provide a detailed and accurate medical response to the following question:"

/-- Default for max_new_tokens in handler.py (environment fallback 256). -/
def MAX_NEW_TOKENS : Nat := 256

/-- Whitespace predicate used to model the Python str.strip method. -/
def isPySpace (c : Char) : Bool := c.isWhitespace

/-- Model of the Python str.strip method: drop whitespace from both ends. -/
def pyStrip (s : String) : String :=
  String.mk (((s.data.dropWhile isPySpace).reverse.dropWhile isPySpace).reverse)

/-- Model of the Python expression s.replace of a newline by a space:
for a one-character pattern this is a character-wise map. -/
def pyReplaceNewlines (s : String) : String :=
  String.mk (s.data.map (fun c => if c = '\n' then ' ' else c))

/-- The output normalisation applied by handler.py to every decoded
generation: replace newlines by spaces, then strip. -/
def normalizeOutput (s : String) : String := pyStrip (pyReplaceNewlines s)

/-- Model of the Python str.startswith method. -/
def pyStartswith (s pre : String) : Bool := pre.data.isPrefixOf s.data

/-- Helper for pySplitComma: accumulate the current chunk in reverse. -/
def splitCommaAux : List Char → List Char → List (List Char)
  | [], cur => [cur.reverse]
  | c :: rest, cur =>
    if c = ',' then cur.reverse :: splitCommaAux rest []
    else splitCommaAux rest (c :: cur)

/-- Model of the Python expression s.split of a comma separator. -/
def pySplitComma (s : String) : List String :=
  (splitCommaAux s.data []).map String.mk

/-- The external effects of handler.py, as oracles. b64open models
Image.open of b64decoded bytes, httpOpen models requests.get followed by
Image.open, fileOpen models Image.open of a path, convertRGB models the
convert call on an image, and genImage / genText model the whole
apply_chat_template / generate / decode pipeline, returning the decoded
text before newline collapsing, or the exception it raises. -/
structure Oracles where
  b64open : String → Except Exn PImage
  httpOpen : String → Except Exn PImage
  fileOpen : String → Except Exn PImage
  convertRGB : PImage → Except Exn PImage
  genImage : String → PImage → Nat → Except Exn String
  genText : String → Nat → Except Exn String

/-- Record of one generation attempt made by the service. -/
inductive GenCall where
  | image (prompt : String) (img : PImage) (maxTok : Nat)
  | text (message : String) (maxTok : Nat)

/-- Is a recorded generation call an image-captioning call. -/
def isImageCall : GenCall → Bool
  | .image _ _ _ => true
  | .text _ _ => false

/-- Embedding of caption_image from handler.py: one generation attempt;
on success the decoded caption is normalised to a single line, and any
exception is caught and turned into an error string that embeds the
traceback after a newline. -/
def caption_image (o : Oracles) (image_data : PImage) (prompt : String)
    (max_new_tokens : Nat) : String × List GenCall :=
  match o.genImage prompt image_data max_new_tokens with
  | .ok raw =>
      (normalizeOutput raw, [GenCall.image prompt image_data max_new_tokens])
  | .error e =>
      ("Error processing image: " ++ e.msg ++ "\n" ++ e.tb,
        [GenCall.image prompt image_data max_new_tokens])

/-- Python truthiness of an optional string (None and the empty string
are falsy). -/
def pyTruthyStr : Option String → Bool
  | none => false
  | some s => s != ""

/-- Prompt resolution inside process_text_question of handler.py: a
truthy prompt argument is used as given, otherwise the hard-coded
medical default. -/
def resolvedTextPrompt (prompt : Option String) : String :=
  if pyTruthyStr prompt then prompt.getD "" else TEXT_QUESTION_DEFAULT_PROMPT

/-- Embedding of process_text_question from handler.py: a truthy prompt
is used as given, otherwise the hard-coded medical default; the message
sent to the model is the prompt, a blank line, then the question. Any
exception is caught and turned into an error string embedding the
traceback. -/
def process_text_question (o : Oracles) (text_input : String)
    (prompt : Option String) (max_new_tokens : Nat) : String × List GenCall :=
  let user_prompt := resolvedTextPrompt prompt
  let message := user_prompt ++ "\n\n" ++ text_input
  match o.genText message max_new_tokens with
  | .ok raw => (normalizeOutput raw, [GenCall.text message max_new_tokens])
  | .error e =>
      ("Error processing text: " ++ e.msg ++ "\n" ++ e.tb,
        [GenCall.text message max_new_tokens])

/-- The IndexError raised by the data-URI branch of handler.py when the
image string has no comma. -/
def INDEX_ERROR : Exn :=
  { msg := "list index out of range", tb := "IndexError: list index out of range" }

/-- Model of the startswith check on the two URL schemes. -/
def isHttpUrl (s : String) : Bool :=
  pyStartswith s "http://" || pyStartswith s "https://"

/-- Embedding of the four-way image-decoding cascade in the handler of
handler.py: data URI, long string tried as bare base64 with URL or file
fallback, URL, and finally local file path. -/
def decodeImage (o : Oracles) (s : String) : Except Exn PImage :=
  if pyStartswith s "data:image" then
    match (pySplitComma s)[1]? with
    | some b64 => o.b64open b64
    | none => .error INDEX_ERROR
  else if s.data.length > 100 then
    match o.b64open s with
    | .ok img => .ok img
    | .error _ => if isHttpUrl s then o.httpOpen s else o.fileOpen s
  else if isHttpUrl s then o.httpOpen s
  else o.fileOpen s

/-- Image decoding followed by the convert call, both inside the same
try block of the handler. -/
def openAndConvert (o : Oracles) (s : String) : Except Exn PImage :=
  match decodeImage o s with
  | .ok img => o.convertRGB img
  | .error e => .error e

/-- Exact validation message of handler.py for a job with neither image
nor text. -/
def NO_INPUT_ERROR : String :=
  "No image or text provided in input. Please provide either \x27image\x27 or \x27text\x27 field."

/-- Exact validation message of handler.py for an invalid text field. -/
def INVALID_TEXT_ERROR : String :=
  "Invalid text input. Please provide a non-empty string."

/-- Exact validation message of handler.py for a non-string image field. -/
def INVALID_IMAGE_ERROR : String :=
  "Invalid image format. Please provide a base64 encoded image, URL, or file path."

/-- Embedding of the handler function of handler.py. The result is an
Except so that a propagated Python exception would be visible as an
error value; every branch of the source returns, so every branch here
is ok. The returned pair is the result dictionary (as a key-value list)
and the log of generation calls made. The final none/none case is
unreachable because of the initial validation check; the Python source
would fall off the function there. -/
def handler (o : Oracles) (job_input : JobInput) :
    Except Exn (List (String × String) × List GenCall) :=
  if job_input.image.isNone && job_input.text.isNone then
    .ok ([("error", NO_INPUT_ERROR)], [])
  else
    let prompt := job_input.prompt.getD CAPTION_PROMPT
    let max_new_tokens := job_input.max_new_tokens.getD MAX_NEW_TOKENS
    match job_input.text with
    | some (.str s) =>
      if pyStrip s == "" then .ok ([("error", INVALID_TEXT_ERROR)], [])
      else
        let r := process_text_question o s (some prompt) max_new_tokens
        .ok ([("response", r.1), ("input_type", "text")], r.2)
    | some .other => .ok ([("error", INVALID_TEXT_ERROR)], [])
    | none =>
      match job_input.image with
      | some (.str s) =>
        match openAndConvert o s with
        | .ok img =>
          let r := caption_image o img prompt max_new_tokens
          .ok ([("caption", r.1), ("input_type", "image")], r.2)
        | .error e =>
          .ok ([("error", "Error processing image: " ++ e.msg),
                ("traceback", e.tb)], [])
      | some .other => .ok ([("error", INVALID_IMAGE_ERROR)], [])
      | none => .ok ([], [])

/-- Does a handler result carry a value rather than a propagated
exception. -/
def isOk (r : Except Exn (List (String × String) × List GenCall)) : Bool :=
  match r with
  | .ok _ => true
  | .error _ => false

/-! Embedding of the client, src/image-captioner.py. The HTTP exchange
is abstracted into the JSON result passed to each function; the
functions return the list of files written as path-content pairs. -/

/-- A top-level JSON response value: a string or a nested string dict. -/
inductive RVal where
  | str (s : String)
  | dict (d : List (String × String))

/-- Python dict lookup returning none for a missing key. -/
def dictGet (d : List (String × String)) (k : String) : Option String :=
  match d.find? (fun p => p.1 == k) with
  | some p => some p.2
  | none => none

/-- Lookup in the top-level response object. -/
def jget (r : List (String × RVal)) (k : String) : Option RVal :=
  match r.find? (fun p => p.1 == k) with
  | some p => some p.2
  | none => none

/-- Index of the last occurrence of a character in a list, or -1,
modelling the Python str.rfind method. -/
def rfindIdx (cs : List Char) (c : Char) : Int :=
  (cs.foldl (fun acc ch => (if ch = c then acc.2 else acc.1, acc.2 + 1))
    ((-1 : Int), (0 : Int))).1

/-- Model of os.path.splitext as implemented by genericpath, with both
slash and backslash accepted as separators (the client targets a
Windows default folder): the extension starts at the last dot of the
base name unless that name consists only of leading dots. -/
def pySplitext (p : String) : String × String :=
  let cs := p.data
  let sepIndex := max (rfindIdx cs '/') (rfindIdx cs '\\')
  let dotIndex := rfindIdx cs '.'
  if dotIndex > sepIndex then
    if (List.range cs.length).any (fun j =>
        decide (sepIndex + 1 ≤ (j : Int)) && decide ((j : Int) < dotIndex) &&
          (cs.getD j '.' != '.')) then
      (String.mk (cs.take dotIndex.toNat), String.mk (cs.drop dotIndex.toNat))
    else (p, "")
  else (p, "")

/-- Output path for a captioned image in image-captioner.py: the source
path with its extension swapped for .txt. -/
def imageOutputPath (image_path : String) : String :=
  (pySplitext image_path).1 ++ ".txt"

/-- Output path for a text question in image-captioner.py, built from
the zero-based enumeration index of the question. -/
def textOutputPath (question_index : Nat) : String :=
  "question_" ++ toString (question_index + 1) ++ ".txt"

/-- Embedding of the save step of send_image_request_sync in
image-captioner.py: given the JSON result, return the files written.
If the top level has an error key, nothing is written; otherwise the
file is opened for writing first, so a failing caption lookup still
leaves an empty file at the derived path. -/
def send_image_request_sync (image_path : String)
    (result : List (String × RVal)) : List (String × String) :=
  if (jget result "error").isSome then []
  else
    match jget result "output" with
    | some (.dict out) =>
      match dictGet out "caption" with
      | some cap => [(imageOutputPath image_path, cap)]
      | none => [(imageOutputPath image_path, "")]
    | _ => [(imageOutputPath image_path, "")]

/-- Embedding of the save step of send_text_request_sync in
image-captioner.py: the answer is looked up under the key answer inside
the output object; the output file is opened for writing before that
lookup, so a missing answer key leaves an empty file. -/
def send_text_request_sync (question : String) (question_index : Nat)
    (result : List (String × RVal)) : List (String × String) :=
  if (jget result "error").isSome then []
  else
    match jget result "output" with
    | some (.dict out) =>
      match dictGet out "answer" with
      | some ans =>
        [(textOutputPath question_index,
          "Question: " ++ question ++ "\n\nAnswer: " ++ ans)]
      | none => [(textOutputPath question_index, "")]
    | _ => [(textOutputPath question_index, "")]

/-- Terminal statuses of the polling loops in image-captioner.py; a
missing status field is modelled as none and is not terminal. -/
def isTerminalStatus : Option String → Bool
  | some s => s == "COMPLETED" || s == "FAILED" || s == "CANCELLED"
  | none => false

/-- Embedding of the while-True polling loop shared by
send_image_request_async and send_text_request_async: the stream f
gives the status observed by the k-th poll; each iteration sleeps the
fixed interval, polls once, and breaks exactly on a terminal status.
The fuel argument bounds the modelled execution only: a result of
some k means the loop performed exactly k + 1 status requests and
stopped at poll k; none means the loop was still running after the
given number of iterations. -/
def pollUntilTerminal (f : Nat → Option String) : Nat → Nat → Option Nat
  | 0, _ => none
  | fuel + 1, i =>
    if isTerminalStatus (f i) then some i
    else pollUntilTerminal f fuel (i + 1)

/-- Polling loop of send_image_request_async, started at the first poll. -/
def send_image_request_async_poll (f : Nat → Option String) (fuel : Nat) :
    Option Nat :=
  pollUntilTerminal f fuel 0

/-- Polling loop of send_text_request_async, started at the first poll. -/
def send_text_request_async_poll (f : Nat → Option String) (fuel : Nat) :
    Option Nat :=
  pollUntilTerminal f fuel 0

/-! Concrete fixtures used by counterexamples and witnesses. -/

/-- Oracles on which every external effect succeeds. -/
def okOracles : Oracles where
  b64open := fun _ => .ok 1
  httpOpen := fun _ => .ok 2
  fileOpen := fun _ => .ok 3
  convertRGB := fun img => .ok img
  genImage := fun _ _ _ => .ok "a normal chest xray"
  genText := fun _ _ => .ok "drink fluids and rest"

/-- Exception raised by the failing generation oracles. -/
def oomExn : Exn :=
  { msg := "CUDA out of memory",
    tb := "Traceback (most recent call last): CUDA out of memory" }

/-- Oracles on which decoding succeeds but generation raises. -/
def genFailOracles : Oracles where
  b64open := fun _ => .ok 1
  httpOpen := fun _ => .ok 2
  fileOpen := fun _ => .ok 3
  convertRGB := fun img => .ok img
  genImage := fun _ _ _ => .error oomExn
  genText := fun _ _ => .error oomExn

/-- Exception raised by the failing image-decoding oracles. -/
def badImageExn : Exn :=
  { msg := "cannot identify image file",
    tb := "Traceback (most recent call last): UnidentifiedImageError" }

/-- Oracles on which every image-opening call raises. -/
def decodeFailOracles : Oracles where
  b64open := fun _ => .error badImageExn
  httpOpen := fun _ => .error badImageExn
  fileOpen := fun _ => .error badImageExn
  convertRGB := fun img => .ok img
  genImage := fun _ _ _ => .ok "a normal chest xray"
  genText := fun _ _ => .ok "drink fluids and rest"

/-- A well-formed data-URI image payload. -/
def dataUriSample : String := "data:image/png;base64,QUFBQQ=="

/-- A job carrying both an image and a text field. -/
def bothJob : JobInput :=
  { image := some (.str dataUriSample), text := some (.str "What is flu?"),
    prompt := none, max_new_tokens := none }

/-- A text-only job with no prompt field. -/
def textJob : JobInput :=
  { image := none, text := some (.str "What is flu?"),
    prompt := none, max_new_tokens := none }

/-- An image-only job given as a data URI, with no prompt field. -/
def imageJob : JobInput :=
  { image := some (.str dataUriSample), text := none,
    prompt := none, max_new_tokens := none }

/-- A status stream that never reaches a terminal status. -/
def alwaysInProgress : Nat → Option String := fun _ => some "IN_PROGRESS"

/-- A status stream that is queued twice and then completes. -/
def statusSeq : Nat → Option String :=
  fun j => if j < 2 then some "IN_QUEUE" else some "COMPLETED"

/-! Helper lemmas shared by the claim theorems. -/

/-- Membership in a dropWhile result implies membership in the list. -/
theorem mem_dropWhile_sub (p : Char → Bool) :
    ∀ (l : List Char) (c : Char), c ∈ l.dropWhile p → c ∈ l := by
  intro l
  induction l with
  | nil => intro c h; simp [List.dropWhile] at h
  | cons a t ih =>
    intro c h
    by_cases hp : p a
    · rw [List.dropWhile_cons_of_pos hp] at h
      exact List.mem_cons_of_mem _ (ih c h)
    · rwa [List.dropWhile_cons_of_neg hp] at h

/-- The normalised model output never contains a newline character. -/
theorem normalizeOutput_no_newline (s : String) :
    ∀ c ∈ (normalizeOutput s).data, c ≠ '\n' := by
  intro c hc
  unfold normalizeOutput pyStrip pyReplaceNewlines at hc
  simp only [List.mem_reverse] at hc
  have h1 := mem_dropWhile_sub _ _ _ hc
  simp only [List.mem_reverse] at h1
  have h2 := mem_dropWhile_sub _ _ _ h1
  obtain ⟨a, _, rfl⟩ := List.mem_map.1 h2
  by_cases ha : a = '\n'
  · simp [ha]
  · simp [ha]

/-- A non-empty explicit prompt resolves to itself. -/
theorem resolvedTextPrompt_some {p : String} (hp : p ≠ "") :
    resolvedTextPrompt (some p) = p := by
  simp [resolvedTextPrompt, pyTruthyStr, hp]

/-- An absent prompt resolves to the text-question default. -/
theorem resolvedTextPrompt_none :
    resolvedTextPrompt none = TEXT_QUESTION_DEFAULT_PROMPT := rfl

/-- An explicit empty prompt resolves to the text-question default. -/
theorem resolvedTextPrompt_empty :
    resolvedTextPrompt (some "") = TEXT_QUESTION_DEFAULT_PROMPT := rfl

/-- The generation log of process_text_question is one text call with
the resolved prompt, independently of the generation outcome. -/
theorem process_text_question_snd (o : Oracles) (s : String)
    (p : Option String) (m : Nat) :
    (process_text_question o s p m).2 =
      [GenCall.text (resolvedTextPrompt p ++ "\n\n" ++ s) m] := by
  unfold process_text_question
  cases hg : o.genText (resolvedTextPrompt p ++ "\n\n" ++ s) m with
  | ok raw => simp [hg]
  | error e => simp [hg]

/-- On any job whose text field is a non-blank string, the handler runs
the text branch: the result is the response dictionary built from
process_text_question, whatever the image field holds. -/
theorem handler_text_eq (o : Oracles) (iv : Option PyVal) (s : String)
    (popt : Option String) (mnt : Option Nat) (h : pyStrip s ≠ "") :
    handler o ⟨iv, some (.str s), popt, mnt⟩ =
      .ok ([("response",
              (process_text_question o s (some (popt.getD CAPTION_PROMPT))
                (mnt.getD MAX_NEW_TOKENS)).1),
            ("input_type", "text")],
           (process_text_question o s (some (popt.getD CAPTION_PROMPT))
             (mnt.getD MAX_NEW_TOKENS)).2) := by
  have hb : (pyStrip s == "") = false := beq_eq_false_iff_ne.mpr h
  cases iv with
  | none => simp [handler, hb]
  | some v => cases v <;> simp [handler, hb]

/-- If the first terminal status in the stream appears at poll k, the
polling loop returns exactly that poll index. -/
theorem pollUntilTerminal_first (f : Nat → Option String) :
    ∀ (k fuel i : Nat),
      (∀ j, j < k → isTerminalStatus (f (i + j)) = false) →
      isTerminalStatus (f (i + k)) = true → k < fuel →
      pollUntilTerminal f fuel i = some (i + k) := by
  intro k
  induction k with
  | zero =>
    intro fuel i _ hterm hfuel
    cases fuel with
    | zero => omega
    | succ m =>
      rw [Nat.add_zero] at hterm
      simp [pollUntilTerminal, hterm]
  | succ k ih =>
    intro fuel i hnon hterm hfuel
    cases fuel with
    | zero => omega
    | succ m =>
      have h0 : isTerminalStatus (f i) = false := by
        have := hnon 0 (Nat.succ_pos k)
        simpa using this
      have hrec : pollUntilTerminal f m (i + 1) = some ((i + 1) + k) := by
        apply ih
        · intro j hj
          have := hnon (j + 1) (Nat.succ_lt_succ hj)
          have e : i + (j + 1) = (i + 1) + j := by omega
          rwa [e] at this
        · have e : i + (k + 1) = (i + 1) + k := by omega
          rwa [e] at hterm
        · omega
      have e : (i + 1) + k = i + (k + 1) := by omega
      simp [pollUntilTerminal, h0, hrec, e]

/-- If the polling loop returns a poll index, the status observed there
is terminal. -/
theorem pollUntilTerminal_some_terminal (f : Nat → Option String) :
    ∀ (fuel i k : Nat), pollUntilTerminal f fuel i = some k →
      isTerminalStatus (f k) = true := by
  intro fuel
  induction fuel with
  | zero => intro i k h; simp [pollUntilTerminal] at h
  | succ m ih =>
    intro i k h
    by_cases ht : isTerminalStatus (f i) = true
    · simp [pollUntilTerminal, ht] at h
      subst h; exact ht
    · simp [pollUntilTerminal, ht] at h
      exact ih _ _ h

/-- On a stream with no terminal status the polling loop never exits,
whatever bound is put on the modelled execution. -/
theorem pollUntilTerminal_none (f : Nat → Option String)
    (hall : ∀ j, isTerminalStatus (f j) = false) :
    ∀ (fuel i : Nat), pollUntilTerminal f fuel i = none := by
  intro fuel
  induction fuel with
  | zero => intro i; rfl
  | succ m ih => intro i; simp [pollUntilTerminal, hall i, ih]

/-! Claim theorems. -/

/-- C6: for every job input dictionary containing neither an image key
nor a text key, the handler returns exactly the validation error
message of handler.py and performs no generation call (the call log is
empty). -/
theorem C6_missing_input_error (o : Oracles) (popt : Option String)
    (mnt : Option Nat) :
    handler o ⟨none, none, popt, mnt⟩ =
      .ok ([("error", NO_INPUT_ERROR)], []) := rfl

/-- C7: for every job whose text field is a string that strips to the
empty string (empty or whitespace-only), the handler returns the
structured validation error result, makes no generation call, and the
result is a returned value, not a raised exception. -/
theorem C7_empty_text_validation (o : Oracles) (iv : Option PyVal)
    (s : String) (popt : Option String) (mnt : Option Nat)
    (h : pyStrip s = "") :
    handler o ⟨iv, some (.str s), popt, mnt⟩ =
      .ok ([("error", INVALID_TEXT_ERROR)], []) := by
  have hb : (pyStrip s == "") = true := beq_iff_eq.mpr h
  cases iv with
  | none => simp [handler, hb]
  | some v => cases v <;> simp [handler, hb]

/-- Witness for C7 at a whitespace-only text input. -/
theorem C7_witness :
    pyStrip "  \t " = "" ∧
    handler okOracles ⟨none, some (.str "  \t "), none, none⟩ =
      .ok ([("error", INVALID_TEXT_ERROR)], []) :=
  ⟨by decide, C7_empty_text_validation okOracles none "  \t " none none (by decide)⟩

/-- C1 counterexample: on a concrete job carrying both an image field
and a text field, the handler enters the text branch: the result has
input_type text, no caption key, and the only generation call is a
text call, refuting the claimed precedence of the image field. -/
theorem C1_counterexample :
    handler okOracles bothJob =
      .ok ([("response", normalizeOutput "drink fluids and rest"),
            ("input_type", "text")],
           [GenCall.text (CAPTION_PROMPT ++ "\n\n" ++ "What is flu?") 256]) ∧
    dictGet [("response", normalizeOutput "drink fluids and rest"),
             ("input_type", "text")] "input_type" = some "text" ∧
    dictGet [("response", normalizeOutput "drink fluids and rest"),
             ("input_type", "text")] "caption" = none ∧
    isImageCall (GenCall.text (CAPTION_PROMPT ++ "\n\n" ++ "What is flu?") 256)
      = false := by
  refine ⟨?_, rfl, rfl, rfl⟩
  rfl

/-- C1 amended: the handler gives precedence to the text field: on every
job whose text field is a non-blank string, whatever the image field
holds, the result is the text response dictionary (no caption key) and
no image generation call is made. -/
theorem C1_text_precedence (o : Oracles) (iv : PyVal) (s : String)
    (popt : Option String) (mnt : Option Nat) (h : pyStrip s ≠ "") :
    handler o ⟨some iv, some (.str s), popt, mnt⟩ =
      .ok ([("response", (process_text_question o s
               (some (popt.getD CAPTION_PROMPT)) (mnt.getD MAX_NEW_TOKENS)).1),
            ("input_type", "text")],
           (process_text_question o s (some (popt.getD CAPTION_PROMPT))
             (mnt.getD MAX_NEW_TOKENS)).2) ∧
    ((process_text_question o s (some (popt.getD CAPTION_PROMPT))
        (mnt.getD MAX_NEW_TOKENS)).2).all (fun c => !(isImageCall c)) = true ∧
    dictGet [("response", (process_text_question o s
               (some (popt.getD CAPTION_PROMPT)) (mnt.getD MAX_NEW_TOKENS)).1),
             ("input_type", "text")] "caption" = none := by
  refine ⟨handler_text_eq o (some iv) s popt mnt h, ?_, rfl⟩
  rw [process_text_question_snd]
  rfl

/-- Witness for C1 at a concrete job carrying both fields. -/
theorem C1_witness :
    handler okOracles ⟨some (PyVal.str dataUriSample),
        some (PyVal.str "What is flu?"), none, none⟩ =
      .ok ([("response", (process_text_question okOracles "What is flu?"
               (some CAPTION_PROMPT) 256).1), ("input_type", "text")],
           (process_text_question okOracles "What is flu?"
             (some CAPTION_PROMPT) 256).2) ∧
    ((process_text_question okOracles "What is flu?"
        (some CAPTION_PROMPT) 256).2).all (fun c => !(isImageCall c)) = true ∧
    dictGet [("response", (process_text_question okOracles "What is flu?"
               (some CAPTION_PROMPT) 256).1), ("input_type", "text")]
        "caption" = none :=
  C1_text_precedence okOracles (PyVal.str dataUriSample) "What is flu?"
    none none (by decide)

/-- C2: for every text job the service result stores the generated text
under the key response and carries no answer key, while the sync text
path of the client reads the answer key of the output object when
saving; on an actual service text result that lookup finds nothing, so
only an empty file is produced. -/
theorem C2_response_key_mismatch :
    (∀ (o : Oracles) (iv : Option PyVal) (s : String) (popt : Option String)
       (mnt : Option Nat), pyStrip s ≠ "" →
       handler o ⟨iv, some (.str s), popt, mnt⟩ =
         .ok ([("response", (process_text_question o s
                  (some (popt.getD CAPTION_PROMPT)) (mnt.getD MAX_NEW_TOKENS)).1),
               ("input_type", "text")],
              (process_text_question o s (some (popt.getD CAPTION_PROMPT))
                (mnt.getD MAX_NEW_TOKENS)).2) ∧
       (∀ r : String,
          dictGet [("response", r), ("input_type", "text")] "response" = some r ∧
          dictGet [("response", r), ("input_type", "text")] "answer" = none)) ∧
    (∀ (q : String) (i : Nat) (out : List (String × String)) (a : String),
       dictGet out "answer" = some a →
       send_text_request_sync q i [("output", RVal.dict out)] =
         [(textOutputPath i, "Question: " ++ q ++ "\n\nAnswer: " ++ a)]) ∧
    (∀ (q : String) (i : Nat) (r : String),
       send_text_request_sync q i
           [("output", RVal.dict [("response", r), ("input_type", "text")])] =
         [(textOutputPath i, "")]) := by
  refine ⟨?_, ?_, ?_⟩
  · intro o iv s popt mnt h
    exact ⟨handler_text_eq o iv s popt mnt h, fun r => ⟨rfl, rfl⟩⟩
  · intro q i out a h
    simp [send_text_request_sync, jget, h]
  · intro q i r
    rfl

/-- Witness for C2 at a concrete text job and concrete client results. -/
theorem C2_witness :
    (handler okOracles ⟨none, some (PyVal.str "What is flu?"), none, none⟩ =
       .ok ([("response", (process_text_question okOracles "What is flu?"
                (some CAPTION_PROMPT) 256).1), ("input_type", "text")],
            (process_text_question okOracles "What is flu?"
              (some CAPTION_PROMPT) 256).2) ∧
     (dictGet [("response", "take rest"), ("input_type", "text")]
         "response" = some "take rest" ∧
      dictGet [("response", "take rest"), ("input_type", "text")]
         "answer" = none)) ∧
    send_text_request_sync "What is flu?" 0
        [("output", RVal.dict [("answer", "a viral infection")])] =
      [(textOutputPath 0,
        "Question: " ++ "What is flu?" ++ "\n\nAnswer: " ++ "a viral infection")] ∧
    send_text_request_sync "What is flu?" 1
        [("output", RVal.dict [("response", "a viral infection"),
                               ("input_type", "text")])] =
      [(textOutputPath 1, "")] :=
  ⟨⟨(C2_response_key_mismatch.1 okOracles none "What is flu?" none none
       (by decide)).1,
    (C2_response_key_mismatch.1 okOracles none "What is flu?" none none
       (by decide)).2 "take rest"⟩,
   C2_response_key_mismatch.2.1 "What is flu?" 0 [("answer", "a viral infection")]
     "a viral infection" rfl,
   C2_response_key_mismatch.2.2 "What is flu?" 1 "a viral infection"⟩

/-- C3 counterexample: on a concrete text-only job with no prompt
field, the single generation call uses the image-captioning default
prompt, and that message differs from the one the text-question default
would have produced, refuting the claim that the text default is used. -/
theorem C3_counterexample :
    handler okOracles textJob =
      .ok ([("response", normalizeOutput "drink fluids and rest"),
            ("input_type", "text")],
           [GenCall.text (CAPTION_PROMPT ++ "\n\n" ++ "What is flu?") 256]) ∧
    CAPTION_PROMPT ++ "\n\n" ++ "What is flu?" ≠
      TEXT_QUESTION_DEFAULT_PROMPT ++ "\n\n" ++ "What is flu?" ∧
    CAPTION_PROMPT ≠ TEXT_QUESTION_DEFAULT_PROMPT := by
  refine ⟨rfl, by decide, by decide⟩

/-- C3 amended: on a text-only job with no prompt field, generation
uses the image-captioning default prompt CAPTION_PROMPT (not the
text-question default); an explicit non-empty prompt is used as given;
an explicit empty prompt falls back to the text-question default. -/
theorem C3_prompt_resolution (o : Oracles) (s : String) (mnt : Option Nat)
    (h : pyStrip s ≠ "") :
    (handler o ⟨none, some (.str s), none, mnt⟩ =
       .ok ([("response", (process_text_question o s (some CAPTION_PROMPT)
                (mnt.getD MAX_NEW_TOKENS)).1), ("input_type", "text")],
            [GenCall.text (CAPTION_PROMPT ++ "\n\n" ++ s)
              (mnt.getD MAX_NEW_TOKENS)])) ∧
    (∀ p : String, p ≠ "" →
       handler o ⟨none, some (.str s), some p, mnt⟩ =
         .ok ([("response", (process_text_question o s (some p)
                  (mnt.getD MAX_NEW_TOKENS)).1), ("input_type", "text")],
              [GenCall.text (p ++ "\n\n" ++ s) (mnt.getD MAX_NEW_TOKENS)])) ∧
    (handler o ⟨none, some (.str s), some "", mnt⟩ =
       .ok ([("response", (process_text_question o s (some "")
                (mnt.getD MAX_NEW_TOKENS)).1), ("input_type", "text")],
            [GenCall.text (TEXT_QUESTION_DEFAULT_PROMPT ++ "\n\n" ++ s)
              (mnt.getD MAX_NEW_TOKENS)])) := by
  refine ⟨?_, ?_, ?_⟩
  · rw [handler_text_eq o none s none mnt h, process_text_question_snd]
    rfl
  · intro p hp
    rw [handler_text_eq o none s (some p) mnt h, process_text_question_snd]
    simp [resolvedTextPrompt_some hp]
  · rw [handler_text_eq o none s (some "") mnt h, process_text_question_snd]
    rfl

/-- Witness for C3 at a concrete question with each prompt shape. -/
theorem C3_witness :
    (handler okOracles ⟨none, some (PyVal.str "What is flu?"), none, none⟩ =
       .ok ([("response", (process_text_question okOracles "What is flu?"
                (some CAPTION_PROMPT) 256).1), ("input_type", "text")],
            [GenCall.text (CAPTION_PROMPT ++ "\n\n" ++ "What is flu?") 256])) ∧
    (handler okOracles ⟨none, some (PyVal.str "What is flu?"),
        some "Answer briefly", none⟩ =
       .ok ([("response", (process_text_question okOracles "What is flu?"
                (some "Answer briefly") 256).1), ("input_type", "text")],
            [GenCall.text ("Answer briefly" ++ "\n\n" ++ "What is flu?") 256])) ∧
    (handler okOracles ⟨none, some (PyVal.str "What is flu?"), some "", none⟩ =
       .ok ([("response", (process_text_question okOracles "What is flu?"
                (some "") 256).1), ("input_type", "text")],
            [GenCall.text (TEXT_QUESTION_DEFAULT_PROMPT ++ "\n\n" ++
              "What is flu?") 256])) :=
  ⟨(C3_prompt_resolution okOracles "What is flu?" none (by decide)).1,
   (C3_prompt_resolution okOracles "What is flu?" none (by decide)).2.1
     "Answer briefly" (by decide),
   (C3_prompt_resolution okOracles "What is flu?" none (by decide)).2.2⟩

/-- C4 counterexample: on a concrete well-formed data-URI image job
whose generation call raises, the result still has input_type image but
the caption is the error string of caption_image, which embeds a
newline before the traceback, refuting the unconditional no-newline
claim. -/
theorem C4_counterexample :
    handler genFailOracles imageJob =
      .ok ([("caption",
             "Error processing image: " ++ oomExn.msg ++ "\n" ++ oomExn.tb),
            ("input_type", "image")],
           [GenCall.image CAPTION_PROMPT 1 256]) ∧
    ("Error processing image: " ++ oomExn.msg ++ "\n" ++ oomExn.tb).data.contains
        '\n' = true ∧
    dictGet [("caption",
              "Error processing image: " ++ oomExn.msg ++ "\n" ++ oomExn.tb),
             ("input_type", "image")] "input_type" = some "image" := by
  refine ⟨rfl, by decide, rfl⟩

/-- C4 amended: for every well-formed image job whose decoding and
generation calls succeed, the result contains input_type image and a
caption equal to the normalised model output, which contains no newline
character; when the generation call itself raises, the caption is
instead an error string embedding a newline (see the counterexample). -/
theorem C4_caption_no_newline (o : Oracles) (s : String)
    (popt : Option String) (mnt : Option Nat) (img : PImage) (raw : String)
    (h1 : openAndConvert o s = .ok img)
    (h2 : o.genImage (popt.getD CAPTION_PROMPT) img (mnt.getD MAX_NEW_TOKENS)
            = .ok raw) :
    handler o ⟨some (.str s), none, popt, mnt⟩ =
      .ok ([("caption", normalizeOutput raw), ("input_type", "image")],
           [GenCall.image (popt.getD CAPTION_PROMPT) img
             (mnt.getD MAX_NEW_TOKENS)]) ∧
    (normalizeOutput raw).data.all (fun c => !(c == '\n')) = true ∧
    dictGet [("caption", normalizeOutput raw), ("input_type", "image")]
        "input_type" = some "image" := by
  refine ⟨?_, ?_, rfl⟩
  · simp [handler, caption_image, h1, h2]
  · rw [List.all_eq_true]
    intro c hc
    have hne := normalizeOutput_no_newline raw c hc
    simp [hne]

/-- Witness for C4 at a concrete data-URI job with succeeding oracles. -/
theorem C4_witness :
    handler okOracles ⟨some (PyVal.str dataUriSample), none, none, none⟩ =
      .ok ([("caption", normalizeOutput "a normal chest xray"),
            ("input_type", "image")],
           [GenCall.image CAPTION_PROMPT 1 256]) ∧
    (normalizeOutput "a normal chest xray").data.all (fun c => !(c == '\n'))
      = true ∧
    dictGet [("caption", normalizeOutput "a normal chest xray"),
             ("input_type", "image")] "input_type" = some "image" :=
  C4_caption_no_newline okOracles dataUriSample none none 1
    "a normal chest xray" rfl rfl

/-- C5: for every job input dictionary the handler returns a result and
never propagates an exception; an exception during image decoding is
surfaced as the error dictionary carrying the message and the traceback,
an exception during image generation is surfaced inside the caption as
an error string embedding the traceback, and an exception during text
generation is surfaced inside the response the same way. -/
theorem C5_no_exception_propagation :
    (∀ (o : Oracles) (inp : JobInput), isOk (handler o inp) = true) ∧
    (∀ (o : Oracles) (s : String) (popt : Option String) (mnt : Option Nat)
       (e : Exn), openAndConvert o s = .error e →
       handler o ⟨some (.str s), none, popt, mnt⟩ =
         .ok ([("error", "Error processing image: " ++ e.msg),
               ("traceback", e.tb)], [])) ∧
    (∀ (o : Oracles) (s : String) (popt : Option String) (mnt : Option Nat)
       (img : PImage) (e : Exn), openAndConvert o s = .ok img →
       o.genImage (popt.getD CAPTION_PROMPT) img (mnt.getD MAX_NEW_TOKENS)
           = .error e →
       handler o ⟨some (.str s), none, popt, mnt⟩ =
         .ok ([("caption", "Error processing image: " ++ e.msg ++ "\n" ++ e.tb),
               ("input_type", "image")],
              [GenCall.image (popt.getD CAPTION_PROMPT) img
                (mnt.getD MAX_NEW_TOKENS)])) ∧
    (∀ (o : Oracles) (s : String) (popt : Option String) (mnt : Option Nat)
       (e : Exn), pyStrip s ≠ "" →
       o.genText (resolvedTextPrompt (some (popt.getD CAPTION_PROMPT)) ++
           "\n\n" ++ s) (mnt.getD MAX_NEW_TOKENS) = .error e →
       handler o ⟨none, some (.str s), popt, mnt⟩ =
         .ok ([("response", "Error processing text: " ++ e.msg ++ "\n" ++ e.tb),
               ("input_type", "text")],
              [GenCall.text (resolvedTextPrompt (some (popt.getD CAPTION_PROMPT))
                  ++ "\n\n" ++ s) (mnt.getD MAX_NEW_TOKENS)])) := by
  refine ⟨?_, ?_, ?_, ?_⟩
  · intro o inp
    obtain ⟨img, txt, popt, mnt⟩ := inp
    cases txt with
    | none =>
      cases img with
      | none => rfl
      | some v =>
        cases v with
        | other => rfl
        | str s =>
          cases h : openAndConvert o s with
          | ok i => simp [handler, isOk, h]
          | error e => simp [handler, isOk, h]
    | some tv =>
      cases tv with
      | other => cases img <;> rfl
      | str s =>
        cases hb : pyStrip s == "" with
        | true => cases img <;> simp [handler, isOk, hb]
        | false => cases img <;> simp [handler, isOk, hb]
  · intro o s popt mnt e h
    simp [handler, h]
  · intro o s popt mnt img e h1 h2
    simp [handler, caption_image, h1, h2]
  · intro o s popt mnt e hs hg
    rw [handler_text_eq o none s popt mnt hs]
    unfold process_text_question
    dsimp only
    rw [hg]

/-- Witness for C5 at a concrete image job whose decoding raises. -/
theorem C5_witness :
    handler decodeFailOracles ⟨some (PyVal.str dataUriSample), none, none, none⟩
      = .ok ([("error", "Error processing image: " ++ badImageExn.msg),
              ("traceback", badImageExn.tb)], []) :=
  C5_no_exception_propagation.2.1 decodeFailOracles dataUriSample none none
    badImageExn rfl

/-- C8: for both async request functions, if the first terminal status
(COMPLETED, FAILED or CANCELLED) in the observed stream appears at poll
k, the polling loop returns exactly poll index k, meaning k + 1 status
requests in total; and the outcome is unchanged under any stream
agreeing up to poll k, so no status request after the first terminal
observation can influence or be required for the result. -/
theorem C8_poll_stops_at_first_terminal (f g : Nat → Option String)
    (k fuel : Nat)
    (hnon : ∀ j, j < k → isTerminalStatus (f j) = false)
    (hterm : isTerminalStatus (f k) = true)
    (hfuel : k < fuel)
    (hagree : ∀ j, j ≤ k → g j = f j) :
    send_image_request_async_poll f fuel = some k ∧
    send_text_request_async_poll f fuel = some k ∧
    send_image_request_async_poll g fuel = some k ∧
    send_text_request_async_poll g fuel = some k := by
  have hf : pollUntilTerminal f fuel 0 = some k := by
    have h := pollUntilTerminal_first f k fuel 0
      (by intro j hj; simpa using hnon j hj)
      (by simpa using hterm) hfuel
    simpa using h
  have hg : pollUntilTerminal g fuel 0 = some k := by
    have h := pollUntilTerminal_first g k fuel 0
      (by intro j hj
          rw [Nat.zero_add, hagree j (Nat.le_of_lt hj)]
          exact hnon j hj)
      (by rw [Nat.zero_add, hagree k (Nat.le_refl k)]; exact hterm) hfuel
    simpa using h
  exact ⟨hf, hf, hg, hg⟩

/-- Witness for C8 on a stream queued twice and then completed. -/
theorem C8_witness :
    send_image_request_async_poll statusSeq 10 = some 2 ∧
    send_text_request_async_poll statusSeq 10 = some 2 ∧
    send_image_request_async_poll statusSeq 10 = some 2 ∧
    send_text_request_async_poll statusSeq 10 = some 2 :=
  C8_poll_stops_at_first_terminal statusSeq statusSeq 2 10
    (by intro j hj; interval_cases j <;> rfl)
    rfl (by omega) (fun j _ => rfl)

/-- C9: whenever an image job succeeds end to end, the sync client
writes exactly one file, at the source path with its extension replaced
by .txt, whose content is the caption returned by the service; and the
output file for the text question with one-based index N is named
question_N.txt. -/
theorem C9_output_files :
    (∀ (o : Oracles) (p s : String) (popt : Option String) (mnt : Option Nat)
       (img : PImage) (raw : String),
       openAndConvert o s = .ok img →
       o.genImage (popt.getD CAPTION_PROMPT) img (mnt.getD MAX_NEW_TOKENS)
           = .ok raw →
       handler o ⟨some (.str s), none, popt, mnt⟩ =
         .ok ([("caption", normalizeOutput raw), ("input_type", "image")],
              [GenCall.image (popt.getD CAPTION_PROMPT) img
                (mnt.getD MAX_NEW_TOKENS)]) ∧
       send_image_request_sync p
           [("output", RVal.dict [("caption", normalizeOutput raw),
                                  ("input_type", "image")])] =
         [(imageOutputPath p, normalizeOutput raw)] ∧
       imageOutputPath p = (pySplitext p).1 ++ ".txt") ∧
    (∀ N : Nat, 1 ≤ N →
       textOutputPath (N - 1) = "question_" ++ toString N ++ ".txt") := by
  constructor
  · intro o p s popt mnt img raw h1 h2
    refine ⟨?_, rfl, rfl⟩
    simp [handler, caption_image, h1, h2]
  · intro N hN
    cases N with
    | zero => omega
    | succ M => simp [textOutputPath]

/-- Witness for C9 at a concrete image path and question index. -/
theorem C9_witness :
    (handler okOracles ⟨some (PyVal.str dataUriSample), none, none, none⟩ =
       .ok ([("caption", normalizeOutput "a normal chest xray"),
             ("input_type", "image")],
            [GenCall.image CAPTION_PROMPT 1 256]) ∧
     send_image_request_sync "C:\\tmp\\scan.jpg"
         [("output", RVal.dict [("caption", normalizeOutput "a normal chest xray"),
                                ("input_type", "image")])] =
       [(imageOutputPath "C:\\tmp\\scan.jpg", normalizeOutput "a normal chest xray")] ∧
     imageOutputPath "C:\\tmp\\scan.jpg" = (pySplitext "C:\\tmp\\scan.jpg").1 ++ ".txt") ∧
    textOutputPath 2 = "question_" ++ toString 3 ++ ".txt" :=
  ⟨C9_output_files.1 okOracles "C:\\tmp\\scan.jpg" dataUriSample none none 1
     "a normal chest xray" rfl rfl,
   C9_output_files.2 3 (by omega)⟩

/-- C10: the polling loop exits only on a terminal status; on any
non-terminal status, including IN_QUEUE, IN_PROGRESS, an unrecognized
string and a missing status, it performs another sleep-and-poll
iteration; and on a stream that never turns terminal neither async
function ever returns, whatever bound is put on the modelled execution,
so the loop has no poll limit and no timeout. -/
theorem C10_poll_loop_behavior :
    (∀ (f : Nat → Option String) (fuel i k : Nat),
       pollUntilTerminal f fuel i = some k → isTerminalStatus (f k) = true) ∧
    (∀ (f : Nat → Option String) (fuel i : Nat),
       isTerminalStatus (f i) = false →
       pollUntilTerminal f (fuel + 1) i = pollUntilTerminal f fuel (i + 1)) ∧
    (isTerminalStatus (some "IN_QUEUE") = false ∧
     isTerminalStatus (some "IN_PROGRESS") = false ∧
     isTerminalStatus (some "SOME_NEW_STATUS") = false ∧
     isTerminalStatus none = false) ∧
    (∀ f : Nat → Option String, (∀ j, isTerminalStatus (f j) = false) →
       ∀ fuel : Nat, send_image_request_async_poll f fuel = none ∧
         send_text_request_async_poll f fuel = none) := by
  refine ⟨pollUntilTerminal_some_terminal, ?_, by decide, ?_⟩
  · intro f fuel i h
    simp [pollUntilTerminal, h]
  · intro f hall fuel
    exact ⟨pollUntilTerminal_none f hall fuel 0,
           pollUntilTerminal_none f hall fuel 0⟩

/-- Witness for C10 on a stream that never turns terminal. -/
theorem C10_witness :
    isTerminalStatus (some "IN_PROGRESS") = false ∧
    send_image_request_async_poll alwaysInProgress 50 = none ∧
    send_text_request_async_poll alwaysInProgress 50 = none :=
  ⟨C10_poll_loop_behavior.2.2.1.2.1,
   (C10_poll_loop_behavior.2.2.2 alwaysInProgress (fun _ => rfl) 50).1,
   (C10_poll_loop_behavior.2.2.2 alwaysInProgress (fun _ => rfl) 50).2⟩

end MedGemma
